import Mathlib

set_option maxHeartbeats 1000000

/-!
Shallow embedding of the rust-daq Python client layer:
the streaming classes of `src/clients/python/src/rust_daq/streaming.py`
(`Frame`, `ParameterChange`, `FrameStream`, `ParameterSubscription`,
`DeviceStateStream`) and the gRPC control client of
`src/clients/python/daq_client.py` (`upload_script`, `stream_status`,
`stream_measurements`).

Conventions of the embedding:
- bytes are `List Nat` (each entry one byte);
- a Python `Optional[T]` is `Option T`;
- an async iterator over the wire is modelled by the finite list of events
  the server delivers before the stream ends, plus (where a claim needs it)
  how the stream ends (normally or with an RPC error);
- raising `StopAsyncIteration` from `__anext__` is modelled by returning
  `none` for the yielded event;
- Python scalar floats on the wire are modelled as `Rat` (exact values are
  never compared by the properties below).
-/

/-- Python truthiness of an `Optional[int]` value: `None` and `0` are falsy,
every other integer is truthy. -/
def optNatTruthy : Option Nat → Bool
  | none => false
  | some n => n != 0

/-- Truthiness-guarded frame-cap test, the exact condition
`self._max_frames and self._frame_count >= self._max_frames` of
`FrameStream.__anext__`. -/
def capReached (mf : Option Nat) (cnt : Nat) : Bool :=
  optNatTruthy mf && decide (cnt ≥ mf.getD 0)

/-- The raw frame dictionary produced by `AsyncClient.stream_frames`, with the
keys `FrameStream.__anext__` reads. -/
structure RawFrame where
  device_id : String
  frame_number : Nat
  width : Nat
  height : Nat
  timestamp_ns : Nat
  pixel_data : Option (List Nat)
  pixel_format : String
deriving DecidableEq

/-- The `Frame` dataclass of streaming.py. -/
structure Frame where
  device_id : String
  frame_number : Nat
  width : Nat
  height : Nat
  timestamp_ns : Nat
  pixel_data : Option (List Nat)
  pixel_format : String
deriving DecidableEq

/-- The `Frame(...)` construction in `FrameStream.__anext__`: each dataclass
field is copied from the corresponding key of the raw dictionary. -/
def mkFrame (raw : RawFrame) : Frame :=
  { device_id := raw.device_id
    frame_number := raw.frame_number
    width := raw.width
    height := raw.height
    timestamp_ns := raw.timestamp_ns
    pixel_data := raw.pixel_data
    pixel_format := raw.pixel_format }

/-- Element byte width of the dtype chosen by `format_map` in `Frame.to_numpy`:
`u8` is 1-byte, `u16_le` and `u16_be` are 2-byte, `f32_le` is 4-byte; `none`
models `format_map.get` returning `None` on an unrecognized tag. -/
def formatItemsize : String → Option Nat
  | "u8" => some 1
  | "u16_le" => some 2
  | "u16_be" => some 2
  | "f32_le" => some 4
  | _ => none

/-- Numeric value of one element chunk, combining bytes per the byte order of
the dtype tag. `f32_le` elements are represented by their little-endian bit
pattern as a natural number (no property below inspects IEEE semantics). -/
def sampleValue (fmt : String) (chunk : List Nat) : Nat :=
  match fmt with
  | "u16_be" => chunk.foldl (fun acc b => acc * 256 + b) 0
  | _ => chunk.reverse.foldl (fun acc b => acc * 256 + b) 0

/-- Split a byte list into consecutive chunks of `n` bytes, as
`np.frombuffer` groups the buffer into elements of the dtype's itemsize. -/
def chunkList (n : Nat) : List Nat → List (List Nat)
  | [] => []
  | x :: xs =>
    match n with
    | 0 => []
    | m + 1 => ((x :: xs).take (m + 1)) :: chunkList (m + 1) (xs.drop m)
termination_by l => l.length
decreasing_by
  simp only [List.length_drop, List.length_cons]
  omega

/-- Row-major reshape of a flat element list to `h` rows of `w` elements,
modelling `arr.reshape((height, width))` when the element count matches. -/
def reshapeRows (h w : Nat) (flat : List Nat) : List (List Nat) :=
  (List.range h).map (fun i => (flat.drop (i * w)).take w)

/-- `Frame.to_numpy` of streaming.py: errors when `pixel_data` is `None` or
the format tag is unrecognized; otherwise decodes the buffer with
`np.frombuffer` (which requires the byte length to be a multiple of the
element size) and reshapes row-major to `(height, width)` (which requires the
element count to equal `height * width`). The resulting array is the list of
its `height` rows, each a list of `width` element values: a two-dimensional
array with no channel dimension. -/
def Frame.to_numpy (f : Frame) : Except String (List (List Nat)) :=
  match f.pixel_data with
  | none => .error "No pixel data available (include_pixel_data=False?)"
  | some data =>
    match formatItemsize f.pixel_format with
    | none => .error ("Unknown pixel format: " ++ f.pixel_format)
    | some bps =>
      if data.length % bps ≠ 0 then
        .error "buffer size must be a multiple of element size"
      else
        let flat := (chunkList bps data).map (sampleValue f.pixel_format)
        if flat.length ≠ f.height * f.width then
          .error "cannot reshape array"
        else
          .ok (reshapeRows f.height f.width flat)

/-- State of a `FrameStream` object after construction, as mutated by
`__aenter__`, `__aexit__` and `__anext__`. The upstream async iterator is the
list of raw frame dictionaries it has yet to deliver; `iterator = none`
models `self._iterator is None`. The `on_frame` callback is modelled by its
presence; its invocations are recorded in the action trace of `anext`. -/
structure FrameStreamState where
  device_id : String
  include_pixel_data : Bool
  max_frames : Option Nat
  has_on_frame : Bool
  frame_count : Nat
  active : Bool
  iterator : Option (List RawFrame)
deriving DecidableEq

/-- Observable actions of one `FrameStream.__anext__` call, in order. -/
inductive FrameAction where
  | callback (f : Frame)
  | yielded (f : Frame)
deriving DecidableEq

/-- `FrameStream.__init__` followed by `__aenter__`: the count is reset, the
stream is marked active and the upstream subscription is opened. -/
def FrameStream.aenter (dev : String) (ipd : Bool) (mf : Option Nat) (cb : Bool)
    (upstream : List RawFrame) : FrameStreamState :=
  { device_id := dev
    include_pixel_data := ipd
    max_frames := mf
    has_on_frame := cb
    frame_count := 0
    active := true
    iterator := some upstream }

/-- `FrameStream.__aexit__`: deactivates the stream and drops the iterator. -/
def FrameStream.aexit (s : FrameStreamState) : FrameStreamState :=
  { s with active := false, iterator := none }

/-- `FrameStream.__anext__`. Returns the yielded frame (`none` models raising
`StopAsyncIteration`), the successor state, and the trace of callback/yield
actions performed, in program order. -/
def FrameStream.anext (s : FrameStreamState) :
    Option Frame × FrameStreamState × List FrameAction :=
  match s.iterator with
  | none => (none, s, [])
  | some l =>
    if s.active = false then (none, s, [])
    else if capReached s.max_frames s.frame_count then (none, s, [])
    else
      match l with
      | [] => (none, { s with active := false }, [])
      | raw :: rest =>
        let f := mkFrame raw
        (some f,
         { s with iterator := some rest, frame_count := s.frame_count + 1 },
         (if s.has_on_frame then [FrameAction.callback f] else []) ++
           [FrameAction.yielded f])

/-- Drive a `FrameStream` with up to `k` successive `__anext__` calls, as an
`async for` loop does, stopping at the first `StopAsyncIteration`. Returns
the yielded frames in order and the final state. -/
def FrameStream.iterate (s : FrameStreamState) : Nat → List Frame × FrameStreamState
  | 0 => ([], s)
  | k + 1 =>
    match FrameStream.anext s with
    | (none, s2, _) => ([], s2)
    | (some f, s2, _) =>
      let r := FrameStream.iterate s2 k
      (f :: r.1, r.2)

/-- Map `E` to `e` so that scientific notation may use either case, as Python
`float()` accepts; every other character is unchanged. -/
def lowerE (c : Char) : Char := if c = 'E' then 'e' else c

/-- Strip leading and trailing whitespace from a character list, as Python
`float()` strips whitespace around the literal. -/
def trimChars (cs : List Char) : List Char :=
  ((cs.dropWhile Char.isWhitespace).reverse.dropWhile Char.isWhitespace).reverse

/-- Strip one optional leading sign, returning the sign as `1` or `-1` and the
remaining characters. -/
def stripSign (cs : List Char) : Int × List Char :=
  match cs with
  | '+' :: t => (1, t)
  | '-' :: t => ((-1 : Int), t)
  | t => ((1 : Int), t)

/-- Value of a digit string read in base 10. -/
def digitsToNat (cs : List Char) : Nat :=
  cs.foldl (fun acc c => acc * 10 + (c.toNat - '0'.toNat)) 0

/-- Nonempty all-digit character list. -/
def isDigits1 (cs : List Char) : Bool :=
  !cs.isEmpty && cs.all Char.isDigit

/-- Parse the mantissa part of a decimal float literal: either `digits`,
`digits.`, `digits.digits` or `.digits` (at least one digit overall). -/
def parseMantissa (cs : List Char) : Option Rat :=
  match cs.splitOn '.' with
  | [d] => if isDigits1 d then some ((digitsToNat d : Nat) : Rat) else none
  | [i, f] =>
    if i.all Char.isDigit && f.all Char.isDigit && !(i.isEmpty && f.isEmpty) then
      some (((digitsToNat i : Nat) : Rat) +
        ((digitsToNat f : Nat) : Rat) / ((10 : Rat) ^ f.length))
    else none
  | _ => none

/-- Parse the exponent part of a decimal float literal: an optional sign
followed by at least one digit. -/
def parseExponent (cs : List Char) : Option Int :=
  let p := stripSign cs
  if isDigits1 p.2 then some (p.1 * ((digitsToNat p.2 : Nat) : Int)) else none

/-- Ten to an integer power, as a rational. -/
def ratTenPow (e : Int) : Rat :=
  if 0 ≤ e then (10 : Rat) ^ e.toNat else 1 / (10 : Rat) ^ (-e).toNat

/-- Model of Python `float(s)` restricted to finite decimal literals
(optional surrounding whitespace, optional sign, decimal mantissa, optional
`e`/`E` exponent). The special forms `inf`, `nan` and underscore digit
separators are outside the model; the returned value is the exact rational
value of the literal. `none` models `float` raising `ValueError`. -/
def pyFloat (s : String) : Option Rat :=
  let cs := (trimChars s.toList).map lowerE
  let p := stripSign cs
  match p.2.splitOn 'e' with
  | [m] => (parseMantissa m).map (fun v => (p.1 : Rat) * v)
  | [m, e] =>
    match parseMantissa m, parseExponent e with
    | some v, some ex => some ((p.1 : Rat) * v * ratTenPow ex)
    | _, _ => none
  | _ => none

/-- Recognizer for the strings accepted by `pyFloat`, written as shape
conditions on the split literal: the spec-level notion of "a valid number". -/
def mantissaShape (cs : List Char) : Bool :=
  match cs.splitOn '.' with
  | [d] => !d.isEmpty && d.all Char.isDigit
  | [i, f] => i.all Char.isDigit && f.all Char.isDigit && (!i.isEmpty || !f.isEmpty)
  | _ => false

/-- Exponent shape: optional sign, then at least one digit. -/
def exponentShape (cs : List Char) : Bool :=
  let t := (stripSign cs).2
  !t.isEmpty && t.all Char.isDigit

/-- A string is a valid finite decimal number: optional whitespace and sign,
then a mantissa with an optional exponent. -/
def isPyFloatString (s : String) : Bool :=
  let cs2 := (stripSign ((trimChars s.toList).map lowerE)).2
  match cs2.splitOn 'e' with
  | [m] => mantissaShape m
  | [m, e] => mantissaShape m && exponentShape e
  | _ => false

/-- The `ParameterChange` dataclass of streaming.py. -/
structure ParameterChange where
  device_id : String
  name : String
  old_value : String
  new_value : String
  units : String
deriving DecidableEq

/-- `ParameterChange.old_as_float`: `float(self.old_value)`; an error models
`float` raising `ValueError` on a non-numeric string. -/
def ParameterChange.old_as_float (pc : ParameterChange) : Except String Rat :=
  match pyFloat pc.old_value with
  | some q => .ok q
  | none => .error ("could not convert string to float: " ++ pc.old_value)

/-- `ParameterChange.new_as_float`: `float(self.new_value)`. -/
def ParameterChange.new_as_float (pc : ParameterChange) : Except String Rat :=
  match pyFloat pc.new_value with
  | some q => .ok q
  | none => .error ("could not convert string to float: " ++ pc.new_value)

/-- The raw change dictionary produced by
`AsyncClient.stream_parameter_changes`, with the keys
`ParameterSubscription.__anext__` reads. -/
structure RawChange where
  device_id : String
  name : String
  old_value : String
  new_value : String
  units : String
deriving DecidableEq

/-- The `ParameterChange(...)` construction in
`ParameterSubscription.__anext__`: fields are copied verbatim from the raw
dictionary; no numeric parsing takes place here. -/
def mkParameterChange (raw : RawChange) : ParameterChange :=
  { device_id := raw.device_id
    name := raw.name
    old_value := raw.old_value
    new_value := raw.new_value
    units := raw.units }

/-- State of a `ParameterSubscription` object: the constructor's filter
arguments, the `on_change` callback (modelled by its presence), the running
change count, the active flag and the upstream iterator. -/
structure ParamSubState where
  device_id : Option String
  parameter_names : Option (List String)
  has_on_change : Bool
  change_count : Nat
  active : Bool
  iterator : Option (List RawChange)
deriving DecidableEq

/-- Observable actions of one `ParameterSubscription.__anext__` call. -/
inductive ParamAction where
  | callback (c : ParameterChange)
  | yielded (c : ParameterChange)
deriving DecidableEq

/-- `ParameterSubscription.__init__` followed by `__aenter__`. -/
def ParameterSubscription.aenter (dev : Option String) (names : Option (List String))
    (cb : Bool) (upstream : List RawChange) : ParamSubState :=
  { device_id := dev
    parameter_names := names
    has_on_change := cb
    change_count := 0
    active := true
    iterator := some upstream }

/-- `ParameterSubscription.__aexit__`: deactivates and drops the iterator. -/
def ParameterSubscription.aexit (s : ParamSubState) : ParamSubState :=
  { s with active := false, iterator := none }

/-- `ParameterSubscription.__anext__`: yields the next change with its string
values copied verbatim; `none` models raising `StopAsyncIteration`. -/
def ParameterSubscription.anext (s : ParamSubState) :
    Option ParameterChange × ParamSubState × List ParamAction :=
  match s.iterator with
  | none => (none, s, [])
  | some l =>
    if s.active = false then (none, s, [])
    else
      match l with
      | [] => (none, { s with active := false }, [])
      | raw :: rest =>
        let c := mkParameterChange raw
        (some c,
         { s with iterator := some rest, change_count := s.change_count + 1 },
         (if s.has_on_change then [ParamAction.callback c] else []) ++
           [ParamAction.yielded c])

/-- Drive a `ParameterSubscription` with up to `k` `__anext__` calls. -/
def ParameterSubscription.iterate (s : ParamSubState) :
    Nat → List ParameterChange × ParamSubState
  | 0 => ([], s)
  | k + 1 =>
    match ParameterSubscription.anext s with
    | (none, s2, _) => ([], s2)
    | (some c, s2, _) =>
      let r := ParameterSubscription.iterate s2 k
      (c :: r.1, r.2)

/-- The request `DeviceStateStream.__aenter__` sends to
`AsyncClient.stream_device_state`. -/
structure StreamDeviceStateRequest where
  device_ids : Option (List String)
  max_rate_hz : Nat
  include_snapshot : Bool
deriving DecidableEq

/-- State of a `DeviceStateStream` object. Device-state update dictionaries
are passed through untouched, so their type is an arbitrary `α`. -/
structure DeviceStateState (α : Type) where
  device_ids : Option (List String)
  max_rate_hz : Nat
  include_snapshot : Bool
  update_count : Nat
  active : Bool
  iterator : Option (List α)
deriving DecidableEq

/-- `DeviceStateStream.__init__` followed by `__aenter__`: returns the new
state together with the request forwarded to the server — `max_rate_hz` is
passed along here and nowhere else. -/
def DeviceStateStream.aenter {α : Type} (dids : Option (List String))
    (mrh : Nat) (snap : Bool) (upstream : List α) :
    DeviceStateState α × StreamDeviceStateRequest :=
  ({ device_ids := dids
     max_rate_hz := mrh
     include_snapshot := snap
     update_count := 0
     active := true
     iterator := some upstream },
   { device_ids := dids, max_rate_hz := mrh, include_snapshot := snap })

/-- `DeviceStateStream.__aexit__`: deactivates and drops the iterator. -/
def DeviceStateStream.aexit {α : Type} (s : DeviceStateState α) : DeviceStateState α :=
  { s with active := false, iterator := none }

/-- `DeviceStateStream.__anext__`: passes the next upstream update through
unchanged, incrementing only the local counter. -/
def DeviceStateStream.anext {α : Type} (s : DeviceStateState α) :
    Option α × DeviceStateState α :=
  match s.iterator with
  | none => (none, s)
  | some l =>
    if s.active = false then (none, s)
    else
      match l with
      | [] => (none, { s with active := false })
      | u :: rest =>
        (some u, { s with iterator := some rest, update_count := s.update_count + 1 })

/-- Drive a `DeviceStateStream` with up to `k` `__anext__` calls. -/
def DeviceStateStream.iterate {α : Type} (s : DeviceStateState α) :
    Nat → List α × DeviceStateState α
  | 0 => ([], s)
  | k + 1 =>
    match DeviceStateStream.anext s with
    | (none, s2) => ([], s2)
    | (some u, s2) =>
      let r := DeviceStateStream.iterate s2 k
      (u :: r.1, r.2)

/-- The `UploadResponse` message fields read by `DaqClient.upload_script`. -/
structure UploadResponse where
  success : Bool
  script_id : String
  error_message : String
deriving DecidableEq

/-- Outcome of one gRPC stub call: either the response message, or the stub
raising `grpc.RpcError` with the given details. -/
def RpcOutcome (α : Type) : Type := Except String α

/-- `DaqClient.upload_script`: performs exactly one `UploadScript` stub call
(whose outcome is the argument) and never retries. A raised `grpc.RpcError`
becomes a `RuntimeError` carrying the details; a completed response with
`success=false` becomes a `RuntimeError` carrying `error_message`; otherwise
the response's `script_id` is returned. The second component counts the stub
calls performed. -/
def upload_script (outcome : RpcOutcome UploadResponse) : Except String String × Nat :=
  match outcome with
  | .error e => (.error ("gRPC error during upload: " ++ e), 1)
  | .ok response =>
    if response.success = false then
      (.error ("Upload failed: " ++ response.error_message), 1)
    else
      (.ok response.script_id, 1)

/-- How the gRPC server-streaming iterator ends after delivering its events:
either normal exhaustion, or `grpc.RpcError` raised with the given details. -/
inductive StreamEnding where
  | normal
  | rpcError (details : String)
deriving DecidableEq

/-- The `StreamStatus` response message fields read by
`DaqClient.stream_status`. -/
structure StatusMsg where
  current_state : String
  current_memory_usage_mb : Rat
  live_values : List (String × Rat)
  timestamp_ns : Nat
deriving DecidableEq

/-- The dictionary `DaqClient.stream_status` yields per update. -/
structure StatusDict where
  state : String
  memory_mb : Rat
  live_values : List (String × Rat)
  timestamp : Nat
deriving DecidableEq

/-- Per-update dictionary construction in `DaqClient.stream_status`. -/
def statusToDict (m : StatusMsg) : StatusDict :=
  { state := m.current_state
    memory_mb := m.current_memory_usage_mb
    live_values := m.live_values
    timestamp := m.timestamp_ns }

/-- Complete observable behaviour of one generator run: the values yielded to
the iterating caller, an exception propagated to that caller (`none` when the
generator simply returns, ending iteration normally), and diagnostic lines
printed to stdout (which the iterating caller does not receive). -/
structure StreamRun (ev : Type) where
  yields : List ev
  raised : Option String
  log : List String
deriving DecidableEq

/-- What the iterating caller of a generator can observe: the yielded values
and whether an exception reached it. The printed log is not part of it. -/
def callerVisible {ev : Type} (r : StreamRun ev) : List ev × Option String :=
  (r.yields, r.raised)

/-- `DaqClient.stream_status`: yields one dictionary per delivered update;
when the stub iterator raises `grpc.RpcError` the generator prints the
details and returns, so the caller sees the iteration end with no exception,
exactly as on normal exhaustion. -/
def stream_status (ups : List StatusMsg) (ending : StreamEnding) : StreamRun StatusDict :=
  { yields := ups.map statusToDict
    raised := none
    log :=
      match ending with
      | .normal => []
      | .rpcError d => ["Stream error: " ++ d] }

/-- The `oneof` payload of a `MeasurementData` message: at most one of the
`scalar` and `image` fields is present on the wire. -/
inductive MeasurementPayload where
  | scalar (v : Rat)
  | image (b : List Nat)
  | nonePayload
deriving DecidableEq

/-- The `MeasurementData` message fields read by
`DaqClient.stream_measurements`. -/
structure DataPoint where
  instrument : String
  timestamp_ns : Nat
  payload : MeasurementPayload
deriving DecidableEq

/-- The dictionary `DaqClient.stream_measurements` yields per data point. -/
structure MeasurementDict where
  instrument : String
  timestamp : Nat
  value : Option Rat
  image : Option (List Nat)
deriving DecidableEq

/-- Per-data-point dictionary construction in `DaqClient.stream_measurements`:
`HasField('scalar')` sets `value` and clears `image`; otherwise
`HasField('image')` sets `image` and clears `value`; otherwise both are
`None`. -/
def measurementToDict (dp : DataPoint) : MeasurementDict :=
  match dp.payload with
  | .scalar v =>
    { instrument := dp.instrument, timestamp := dp.timestamp_ns,
      value := some v, image := none }
  | .image b =>
    { instrument := dp.instrument, timestamp := dp.timestamp_ns,
      value := none, image := some b }
  | .nonePayload =>
    { instrument := dp.instrument, timestamp := dp.timestamp_ns,
      value := none, image := none }

/-- `DaqClient.stream_measurements`: yields one dictionary per delivered data
point; a mid-stream `grpc.RpcError` is printed and swallowed, ending the
iteration with no exception, exactly as on normal exhaustion. -/
def stream_measurements (ups : List DataPoint) (ending : StreamEnding) :
    StreamRun MeasurementDict :=
  { yields := ups.map measurementToDict
    raised := none
    log :=
      match ending with
      | .normal => []
      | .rpcError d => ["Measurement stream error: " ++ d] }

lemma capReached_true (N c : Nat) (hN : N ≠ 0) (hc : N ≤ c) :
    capReached (some N) c = true := by
  simp [capReached, optNatTruthy]
  omega

lemma capReached_false (N c : Nat) (hc : c < N) :
    capReached (some N) c = false := by
  simp [capReached, optNatTruthy]
  omega

/-- Characterization of a capped `FrameStream` run: with `max_frames = N ≠ 0`
and `frame_count = c ≤ N`, `k` iteration steps yield the first
`min (N - c) k` upstream frames. -/
lemma frameIterate_capped (N : Nat) (hN : 0 < N) :
    ∀ (k : Nat) (s : FrameStreamState) (l : List RawFrame),
      s.max_frames = some N → s.active = true → s.iterator = some l →
      s.frame_count ≤ N →
      (FrameStream.iterate s k).1 = (l.take (min (N - s.frame_count) k)).map mkFrame := by
  intro k
  induction k with
  | zero =>
    intro s l _ _ _ _
    simp [FrameStream.iterate]
  | succ k ih =>
    intro s l hmf hact hit hcnt
    obtain ⟨dev, ipd, mf, cb, c, act, it⟩ := s
    simp only at hmf hact hit hcnt ⊢
    subst hmf hact hit
    by_cases hc : c = N
    · subst hc
      have hcap := capReached_true c c (by omega) (le_refl c)
      simp [FrameStream.iterate, FrameStream.anext, hcap]
    · have hlt : c < N := lt_of_le_of_ne hcnt hc
      have hcap := capReached_false N c hlt
      cases l with
      | nil =>
        simp [FrameStream.iterate, FrameStream.anext, hcap]
      | cons raw rest =>
        have step := ih
          { device_id := dev, include_pixel_data := ipd, max_frames := some N,
            has_on_frame := cb, frame_count := c + 1, active := true,
            iterator := some rest } rest rfl rfl rfl (by show c + 1 ≤ N; omega)
        dsimp only at step
        have hmin : min (N - c) (k + 1) = (min (N - (c + 1)) k) + 1 := by omega
        simp [FrameStream.iterate, FrameStream.anext, hcap, step, hmin,
          List.take_succ_cons]

/-- Characterization of an uncapped `FrameStream` run (`max_frames` `None` or
falsy): `k` iteration steps yield the first `k` upstream frames. -/
lemma frameIterate_uncapped :
    ∀ (k : Nat) (s : FrameStreamState) (l : List RawFrame),
      optNatTruthy s.max_frames = false → s.active = true → s.iterator = some l →
      (FrameStream.iterate s k).1 = (l.take k).map mkFrame := by
  intro k
  induction k with
  | zero =>
    intro s l _ _ _
    simp [FrameStream.iterate]
  | succ k ih =>
    intro s l hmf hact hit
    obtain ⟨dev, ipd, mf, cb, c, act, it⟩ := s
    simp only at hmf hact hit ⊢
    subst hact hit
    have hcap : capReached mf c = false := by
      simp [capReached, hmf]
    cases l with
    | nil =>
      simp [FrameStream.iterate, FrameStream.anext, hcap]
    | cons raw rest =>
      have step := ih
        { device_id := dev, include_pixel_data := ipd, max_frames := mf,
          has_on_frame := cb, frame_count := c + 1, active := true,
          iterator := some rest } rest hmf rfl rfl
      simp [FrameStream.iterate, FrameStream.anext, hcap, step]

/-- Pass-through characterization of a `DeviceStateStream` run: `k` iteration
steps yield the first `k` upstream updates verbatim. -/
lemma deviceIterate {α : Type} :
    ∀ (k : Nat) (s : DeviceStateState α) (l : List α),
      s.active = true → s.iterator = some l →
      (DeviceStateStream.iterate s k).1 = l.take k := by
  intro k
  induction k with
  | zero =>
    intro s l _ _
    simp [DeviceStateStream.iterate]
  | succ k ih =>
    intro s l hact hit
    obtain ⟨dids, mrh, snap, c, act, it⟩ := s
    simp only at hact hit ⊢
    subst hact hit
    cases l with
    | nil =>
      simp [DeviceStateStream.iterate, DeviceStateStream.anext]
    | cons u rest =>
      have step := ih
        { device_ids := dids, max_rate_hz := mrh, include_snapshot := snap,
          update_count := c + 1, active := true, iterator := some rest }
        rest rfl rfl
      simp [DeviceStateStream.iterate, DeviceStateStream.anext, step]

/-- C1 (amended to `1 ≤ N`; for `N = 0` the truthiness test disables the cap,
see the `max_frames = 0` theorem): a `FrameStream` opened with
`max_frames = N ≥ 1` over an upstream of at least `N` frames yields exactly
the first `N` frames, and yields nothing further no matter how many more
`__anext__` calls the consumer makes or how many more frames are available
upstream. -/
theorem frameStream_cap_yields_exactly_N (dev : String) (ipd cb : Bool)
    (N k : Nat) (l : List RawFrame) (hN : 1 ≤ N) (hup : N ≤ l.length)
    (hk : N ≤ k) :
    (FrameStream.iterate (FrameStream.aenter dev ipd (some N) cb l) k).1
      = (l.take N).map mkFrame ∧
    (FrameStream.iterate (FrameStream.aenter dev ipd (some N) cb l) k).1.length
      = N := by
  have h := frameIterate_capped N (by omega) k
    (FrameStream.aenter dev ipd (some N) cb l) l rfl rfl rfl
    (by show 0 ≤ N; omega)
  have hmin : min (N - (FrameStream.aenter dev ipd (some N) cb l).frame_count) k
      = N := by
    show min (N - 0) k = N
    omega
  rw [hmin] at h
  refine ⟨h, ?_⟩
  rw [h]
  simp only [List.length_map, List.length_take]
  omega

/-- Witness for the `max_frames` cap theorem at `N = 2`, three frames
upstream, five `__anext__` calls. -/
theorem frameStream_cap_yields_exactly_N_witness :
    (FrameStream.iterate (FrameStream.aenter "camera_0" true (some 2) false
      [⟨"camera_0", 1, 1, 1, 0, none, "u8"⟩,
       ⟨"camera_0", 2, 1, 1, 0, none, "u8"⟩,
       ⟨"camera_0", 3, 1, 1, 0, none, "u8"⟩]) 5).1
      = (([⟨"camera_0", 1, 1, 1, 0, none, "u8"⟩,
           ⟨"camera_0", 2, 1, 1, 0, none, "u8"⟩,
           ⟨"camera_0", 3, 1, 1, 0, none, "u8"⟩] : List RawFrame).take 2).map
          mkFrame ∧
    (FrameStream.iterate (FrameStream.aenter "camera_0" true (some 2) false
      [⟨"camera_0", 1, 1, 1, 0, none, "u8"⟩,
       ⟨"camera_0", 2, 1, 1, 0, none, "u8"⟩,
       ⟨"camera_0", 3, 1, 1, 0, none, "u8"⟩]) 5).1.length = 2 :=
  frameStream_cap_yields_exactly_N "camera_0" true false 2 5
    [⟨"camera_0", 1, 1, 1, 0, none, "u8"⟩,
     ⟨"camera_0", 2, 1, 1, 0, none, "u8"⟩,
     ⟨"camera_0", 3, 1, 1, 0, none, "u8"⟩]
    (by decide) (by decide) (by decide)

/-- Counterexample to C1 as stated for every `N`: with `max_frames = 0` and
one frame available upstream (so the upstream produces at least `N = 0`
frames), iteration yields one frame, not zero. -/
theorem frameStream_cap_zero_cex :
    (FrameStream.iterate (FrameStream.aenter "camera_0" true (some 0) false
      [⟨"camera_0", 1, 1, 1, 0, none, "u8"⟩]) 5).1.length = 1 ∧
    ¬ ((FrameStream.iterate (FrameStream.aenter "camera_0" true (some 0) false
      [⟨"camera_0", 1, 1, 1, 0, none, "u8"⟩]) 5).1.length = 0) := by
  decide

/-- C10: `max_frames = 0` is falsy in the guard
`self._max_frames and self._frame_count >= self._max_frames`, so the cap is
not enforced: the stream behaves exactly like `max_frames = None`, yielding
the first `k` upstream frames for every iteration budget `k` instead of
yielding zero frames. -/
theorem frameStream_max_frames_zero_uncapped (dev : String) (ipd cb : Bool)
    (l : List RawFrame) (k : Nat) :
    (FrameStream.iterate (FrameStream.aenter dev ipd (some 0) cb l) k).1
      = (l.take k).map mkFrame ∧
    (FrameStream.iterate (FrameStream.aenter dev ipd (some 0) cb l) k).1
      = (FrameStream.iterate (FrameStream.aenter dev ipd none cb l) k).1 := by
  have h0 := frameIterate_uncapped k
    (FrameStream.aenter dev ipd (some 0) cb l) l rfl rfl rfl
  have h1 := frameIterate_uncapped k
    (FrameStream.aenter dev ipd none cb l) l rfl rfl rfl
  exact ⟨h0, h0.trans h1.symm⟩

/-- C2: for each of the three stream-lifecycle classes, once `__aexit__` has
run, every subsequent `__anext__` raises `StopAsyncIteration` (yields nothing)
and leaves the closed state unchanged — so an entire subsequent iteration of
any length yields no event — and running `__aexit__` again is idempotent. -/
theorem closed_streams_never_yield_and_aexit_idempotent :
    (∀ s : FrameStreamState,
       FrameStream.anext (FrameStream.aexit s)
         = (none, FrameStream.aexit s, []) ∧
       FrameStream.aexit (FrameStream.aexit s) = FrameStream.aexit s ∧
       ∀ n, FrameStream.iterate (FrameStream.aexit s) n
         = ([], FrameStream.aexit s)) ∧
    (∀ s : ParamSubState,
       ParameterSubscription.anext (ParameterSubscription.aexit s)
         = (none, ParameterSubscription.aexit s, []) ∧
       ParameterSubscription.aexit (ParameterSubscription.aexit s)
         = ParameterSubscription.aexit s ∧
       ∀ n, ParameterSubscription.iterate (ParameterSubscription.aexit s) n
         = ([], ParameterSubscription.aexit s)) ∧
    (∀ (α : Type) (s : DeviceStateState α),
       DeviceStateStream.anext (DeviceStateStream.aexit s)
         = (none, DeviceStateStream.aexit s) ∧
       DeviceStateStream.aexit (DeviceStateStream.aexit s)
         = DeviceStateStream.aexit s ∧
       ∀ n, DeviceStateStream.iterate (DeviceStateStream.aexit s) n
         = ([], DeviceStateStream.aexit s)) :=
  ⟨fun _ => ⟨rfl, rfl, fun n => by cases n <;> rfl⟩,
   fun _ => ⟨rfl, rfl, fun n => by cases n <;> rfl⟩,
   fun _ _ => ⟨rfl, rfl, fun n => by cases n <;> rfl⟩⟩

/-- C6: whenever a `FrameStream` with an `on_frame` callback (respectively a
`ParameterSubscription` with an `on_change` callback) yields an event, the
`__anext__` call's action trace is exactly one callback invocation on that
very event followed by the yield of that event: the callback runs
synchronously, exactly once per event, before the event reaches the
consumer. -/
theorem callback_invoked_once_before_yield :
    (∀ (s : FrameStreamState) (f : Frame),
       s.has_on_frame = true → (FrameStream.anext s).1 = some f →
       (FrameStream.anext s).2.2
         = [FrameAction.callback f, FrameAction.yielded f]) ∧
    (∀ (s : ParamSubState) (c : ParameterChange),
       s.has_on_change = true → (ParameterSubscription.anext s).1 = some c →
       (ParameterSubscription.anext s).2.2
         = [ParamAction.callback c, ParamAction.yielded c]) := by
  constructor
  · intro s f hcb hy
    obtain ⟨dev, ipd, mf, cb, c, act, it⟩ := s
    simp only at hcb
    subst hcb
    cases it with
    | none => simp [FrameStream.anext] at hy
    | some l =>
      cases act with
      | false => simp [FrameStream.anext] at hy
      | true =>
        cases hcap : capReached mf c with
        | true => simp [FrameStream.anext, hcap] at hy
        | false =>
          cases l with
          | nil => simp [FrameStream.anext, hcap] at hy
          | cons raw rest =>
            simp [FrameStream.anext, hcap] at hy ⊢
            simp [hy]
  · intro s c hcb hy
    obtain ⟨dev, names, cb, cnt, act, it⟩ := s
    simp only at hcb
    subst hcb
    cases it with
    | none => simp [ParameterSubscription.anext] at hy
    | some l =>
      cases act with
      | false => simp [ParameterSubscription.anext] at hy
      | true =>
        cases l with
        | nil => simp [ParameterSubscription.anext] at hy
        | cons raw rest =>
          simp [ParameterSubscription.anext] at hy ⊢
          simp [hy]

/-- Witness for the callback-ordering theorem: a concrete frame stream and a
concrete parameter subscription, each with a callback installed, each about
to deliver one concrete event. -/
theorem callback_invoked_once_before_yield_witness :
    (FrameStream.anext
        (FrameStream.aenter "camera_0" true none true
          [⟨"camera_0", 7, 2, 2, 11, none, "u8"⟩])).2.2
      = [FrameAction.callback (mkFrame ⟨"camera_0", 7, 2, 2, 11, none, "u8"⟩),
         FrameAction.yielded (mkFrame ⟨"camera_0", 7, 2, 2, 11, none, "u8"⟩)] ∧
    (ParameterSubscription.anext
        (ParameterSubscription.aenter (some "laser") none true
          [⟨"laser", "wavelength_nm", "780", "781", "nm"⟩])).2.2
      = [ParamAction.callback
           (mkParameterChange ⟨"laser", "wavelength_nm", "780", "781", "nm"⟩),
         ParamAction.yielded
           (mkParameterChange ⟨"laser", "wavelength_nm", "780", "781", "nm"⟩)] :=
  ⟨callback_invoked_once_before_yield.1
      (FrameStream.aenter "camera_0" true none true
        [⟨"camera_0", 7, 2, 2, 11, none, "u8"⟩])
      (mkFrame ⟨"camera_0", 7, 2, 2, 11, none, "u8"⟩) (by decide) (by decide),
   callback_invoked_once_before_yield.2
      (ParameterSubscription.aenter (some "laser") none true
        [⟨"laser", "wavelength_nm", "780", "781", "nm"⟩])
      (mkParameterChange ⟨"laser", "wavelength_nm", "780", "781", "nm"⟩)
      (by decide) (by decide)⟩

/-- C8: the `DeviceStateStream` client performs no local rate limiting:
`max_rate_hz` is forwarded to the server in the open request (and appears
nowhere in the iteration path), and every update the upstream iterator
delivers is yielded to the consumer unchanged and in order — the first `k`
upstream updates for any iteration budget `k`, and all of them when iterated
to exhaustion — with none dropped or locally coalesced. -/
theorem deviceStateStream_no_local_rate_limit (α : Type)
    (dids : Option (List String)) (mrh : Nat) (snap : Bool) (ups : List α)
    (k : Nat) :
    (DeviceStateStream.aenter dids mrh snap ups).2.max_rate_hz = mrh ∧
    (DeviceStateStream.aenter dids mrh snap ups).2
      = { device_ids := dids, max_rate_hz := mrh, include_snapshot := snap } ∧
    (DeviceStateStream.iterate
        (DeviceStateStream.aenter dids mrh snap ups).1 k).1 = ups.take k ∧
    (DeviceStateStream.iterate
        (DeviceStateStream.aenter dids mrh snap ups).1 ups.length).1 = ups := by
  refine ⟨rfl, rfl, deviceIterate k _ ups rfl rfl, ?_⟩
  rw [deviceIterate ups.length _ ups rfl rfl]
  exact List.take_length ups

/-- C7: `upload_script` returns the response's `script_id` exactly when the
response has `success=true`; with `success=false` it raises a `RuntimeError`
carrying the response's `error_message`; a transport-level `RpcError` is
re-raised as a `RuntimeError` carrying the gRPC details; and every invocation
performs exactly one `UploadScript` stub call — no retry in any case. -/
theorem upload_script_success_iff_script_id (r : UploadResponse) (e : String) :
    (r.success = true →
      upload_script (Except.ok r) = (Except.ok r.script_id, 1)) ∧
    (r.success = false →
      upload_script (Except.ok r)
        = (Except.error ("Upload failed: " ++ r.error_message), 1)) ∧
    (∀ sid, (upload_script (Except.ok r)).1 = Except.ok sid →
      r.success = true ∧ sid = r.script_id) ∧
    upload_script (Except.error e)
      = (Except.error ("gRPC error during upload: " ++ e), 1) ∧
    (∀ o : RpcOutcome UploadResponse, (upload_script o).2 = 1) := by
  refine ⟨?_, ?_, ?_, rfl, ?_⟩
  · intro hs
    simp [upload_script, hs]
  · intro hs
    simp [upload_script, hs]
  · intro sid h
    cases hs : r.success with
    | false => simp [upload_script, hs] at h
    | true =>
      simp [upload_script, hs] at h
      exact ⟨rfl, h.symm⟩
  · intro o
    cases o with
    | error e2 => rfl
    | ok r2 =>
      cases hs : r2.success with
      | false => simp [upload_script, hs]
      | true => simp [upload_script, hs]

/-- Witness for the `upload_script` theorem: one successful response and one
semantically failed response. -/
theorem upload_script_success_iff_script_id_witness :
    upload_script (Except.ok (⟨true, "script-42", ""⟩ : UploadResponse))
      = (Except.ok "script-42", 1) ∧
    upload_script (Except.ok (⟨false, "", "parse error"⟩ : UploadResponse))
      = (Except.error ("Upload failed: " ++ "parse error"), 1) ∧
    upload_script (Except.error "daemon unreachable")
      = (Except.error ("gRPC error during upload: " ++ "daemon unreachable"), 1) :=
  ⟨(upload_script_success_iff_script_id ⟨true, "script-42", ""⟩ "x").1 rfl,
   (upload_script_success_iff_script_id ⟨false, "", "parse error"⟩ "x").2.1 rfl,
   (upload_script_success_iff_script_id ⟨true, "", ""⟩
      "daemon unreachable").2.2.2.1⟩

/-- C3 (amended): when the RPC layer raises mid-stream, `stream_status` and
`stream_measurements` print the error details and return: the iterating
caller observes exactly the same yields and the same absence of an exception
as on a normal end of stream — the failure is not surfaced as a distinct
condition; only a line printed to stdout differs. -/
theorem stream_failure_ends_iteration_silently (ups : List StatusMsg)
    (dps : List DataPoint) (d : String) :
    callerVisible (stream_status ups (StreamEnding.rpcError d))
      = callerVisible (stream_status ups StreamEnding.normal) ∧
    (stream_status ups (StreamEnding.rpcError d)).raised = none ∧
    (stream_status ups (StreamEnding.rpcError d)).log
      = ["Stream error: " ++ d] ∧
    callerVisible (stream_measurements dps (StreamEnding.rpcError d))
      = callerVisible (stream_measurements dps StreamEnding.normal) ∧
    (stream_measurements dps (StreamEnding.rpcError d)).raised = none ∧
    (stream_measurements dps (StreamEnding.rpcError d)).log
      = ["Measurement stream error: " ++ d] :=
  ⟨rfl, rfl, rfl, rfl, rfl, rfl⟩

/-- Counterexample to C3 as stated: at a concrete one-update stream, a
mid-stream connection failure produces a caller-visible outcome identical to
a normal end of stream (same yields, no exception), so the caller cannot
distinguish the failure from normal exhaustion. -/
theorem stream_failure_indistinguishable_cex :
    callerVisible (stream_status [⟨"RUNNING", 100, [], 5⟩]
        (StreamEnding.rpcError "connection reset"))
      = callerVisible (stream_status [⟨"RUNNING", 100, [], 5⟩]
        StreamEnding.normal) ∧
    (stream_status [⟨"RUNNING", 100, [], 5⟩]
        (StreamEnding.rpcError "connection reset")).raised = none :=
  ⟨rfl, rfl⟩

/-- C5: each dictionary yielded by `stream_measurements` is the image of its
wire data point, and at most one of its `value` and `image` entries is
non-`None`: the scalar variant sets `value` and clears `image`, the image
variant sets `image` and clears `value`, and an absent payload clears both. -/
theorem measurement_value_image_exclusive :
    (∀ (ups : List DataPoint) (ending : StreamEnding),
       (stream_measurements ups ending).yields = ups.map measurementToDict) ∧
    (∀ dp : DataPoint,
       (∀ v, dp.payload = MeasurementPayload.scalar v →
         measurementToDict dp
           = ⟨dp.instrument, dp.timestamp_ns, some v, none⟩) ∧
       (∀ b, dp.payload = MeasurementPayload.image b →
         measurementToDict dp
           = ⟨dp.instrument, dp.timestamp_ns, none, some b⟩) ∧
       (dp.payload = MeasurementPayload.nonePayload →
         measurementToDict dp
           = ⟨dp.instrument, dp.timestamp_ns, none, none⟩) ∧
       ¬ ((measurementToDict dp).value.isSome
            ∧ (measurementToDict dp).image.isSome)) := by
  refine ⟨fun _ _ => rfl, fun dp => ?_⟩
  obtain ⟨inst, ts, payload⟩ := dp
  cases payload <;>
    simp [measurementToDict]

/-- Witness for the measurement-payload theorem: one concrete data point per
variant. -/
theorem measurement_value_image_exclusive_witness :
    measurementToDict ⟨"pm100", 3, MeasurementPayload.scalar 7⟩
      = ⟨"pm100", 3, some 7, none⟩ ∧
    measurementToDict ⟨"cam", 4, MeasurementPayload.image [1, 2]⟩
      = ⟨"cam", 4, none, some [1, 2]⟩ ∧
    measurementToDict ⟨"idle", 5, MeasurementPayload.nonePayload⟩
      = ⟨"idle", 5, none, none⟩ :=
  ⟨(measurement_value_image_exclusive.2
      ⟨"pm100", 3, MeasurementPayload.scalar 7⟩).1 7 rfl,
   (measurement_value_image_exclusive.2
      ⟨"cam", 4, MeasurementPayload.image [1, 2]⟩).2.1 [1, 2] rfl,
   (measurement_value_image_exclusive.2
      ⟨"idle", 5, MeasurementPayload.nonePayload⟩).2.2.1 rfl⟩

lemma formatItemsize_pos (fmt : String) (b : Nat)
    (h : formatItemsize fmt = some b) : 0 < b := by
  unfold formatItemsize at h
  split at h <;> simp_all
  all_goals omega

/-- A buffer of length `m * K` splits into exactly `m` chunks of `K` bytes. -/
lemma chunkList_length (K : Nat) (hK : 0 < K) :
    ∀ (m : Nat) (d : List Nat), d.length = m * K → (chunkList K d).length = m := by
  intro m
  induction m with
  | zero =>
    intro d hd
    rw [Nat.zero_mul] at hd
    rw [List.length_eq_zero.mp hd]
    simp [chunkList]
  | succ m ih =>
    intro d hd
    obtain ⟨b, rfl⟩ : ∃ b, K = b + 1 := ⟨K - 1, by omega⟩
    cases d with
    | nil =>
      exfalso
      rw [Nat.succ_mul] at hd
      simp only [List.length_nil] at hd
      omega
    | cons x xs =>
      rw [Nat.succ_mul] at hd
      simp only [List.length_cons] at hd
      have hrec : (chunkList (b + 1) (xs.drop b)).length = m := by
        apply ih
        simp only [List.length_drop]
        omega
      simp [chunkList, hrec]

/-- Length of the concatenation of uniformly sized rows. -/
lemma flatten_length_uniform (w : Nat) :
    ∀ (l : List (List Nat)), (∀ r ∈ l, r.length = w) →
      l.flatten.length = l.length * w := by
  intro l
  induction l with
  | nil => intro _; simp
  | cons a t ih =>
    intro h
    have ha := h a (by simp)
    have ht : ∀ r ∈ t, r.length = w := fun r hr => h r (by simp [hr])
    simp only [List.flatten_cons, List.length_append, List.length_cons, ha,
      ih ht, Nat.succ_mul]
    omega

lemma reshapeRows_length (h w : Nat) (flat : List Nat) :
    (reshapeRows h w flat).length = h := by
  simp [reshapeRows]

lemma reshapeRows_row_length (h w : Nat) (flat : List Nat)
    (hlen : flat.length = h * w) :
    ∀ r ∈ reshapeRows h w flat, r.length = w := by
  intro r hr
  simp only [reshapeRows, List.mem_map, List.mem_range] at hr
  obtain ⟨i, hi, rfl⟩ := hr
  simp only [List.length_take, List.length_drop, hlen]
  have h1 : 1 ≤ h - i := by omega
  have h2 : 1 * w ≤ (h - i) * w := Nat.mul_le_mul_right w h1
  rw [Nat.sub_mul, one_mul] at h2
  exact Nat.min_eq_left h2

/-- C4: for a `Frame` whose `pixel_format` is one of the four recognized tags
(so `formatItemsize` returns its element width `bps`) and whose `pixel_data`
has length exactly `width * height * bps`, `to_numpy` succeeds with a
row-major array of `height` rows of `width` elements each — `width * height`
elements in all, no channel dimension; and `to_numpy` fails whenever
`pixel_data` is `None` or the format tag is unrecognized. -/
theorem to_numpy_decode_spec :
    (∀ (f : Frame) (d : List Nat) (bps : Nat),
       f.pixel_data = some d →
       formatItemsize f.pixel_format = some bps →
       d.length = f.width * f.height * bps →
       ∃ rows, f.to_numpy = Except.ok rows ∧ rows.length = f.height ∧
         (∀ r ∈ rows, r.length = f.width) ∧
         rows.flatten.length = f.width * f.height) ∧
    (∀ f : Frame, f.pixel_data = none → ∃ e, f.to_numpy = Except.error e) ∧
    (∀ f : Frame, formatItemsize f.pixel_format = none →
       ∃ e, f.to_numpy = Except.error e) := by
  refine ⟨?_, ?_, ?_⟩
  · intro f d bps hd hfmt hlen
    have hbps : 0 < bps := formatItemsize_pos f.pixel_format bps hfmt
    have hchunks : (chunkList bps d).length = f.width * f.height :=
      chunkList_length bps hbps (f.width * f.height) d hlen
    have hflat : ((chunkList bps d).map (sampleValue f.pixel_format)).length
        = f.width * f.height := by
      rw [List.length_map, hchunks]
    have hmod : d.length % bps = 0 := by
      rw [hlen]
      exact Nat.mul_mod_left (f.width * f.height) bps
    refine ⟨reshapeRows f.height f.width
      ((chunkList bps d).map (sampleValue f.pixel_format)), ?_, ?_, ?_, ?_⟩
    · unfold Frame.to_numpy
      rw [hd, hfmt]
      simp only [hmod, hflat, Nat.mul_comm f.width f.height]
      simp
    · exact reshapeRows_length f.height f.width _
    · exact reshapeRows_row_length f.height f.width _
        (by rw [hflat, Nat.mul_comm])
    · rw [flatten_length_uniform f.width _
        (reshapeRows_row_length f.height f.width _
          (by rw [hflat, Nat.mul_comm])),
        reshapeRows_length, Nat.mul_comm]
  · intro f h
    unfold Frame.to_numpy
    rw [h]
    exact ⟨_, rfl⟩
  · intro f h
    unfold Frame.to_numpy
    cases hd : f.pixel_data with
    | none => exact ⟨_, rfl⟩
    | some d =>
      rw [h]
      exact ⟨_, rfl⟩

/-- Witness for the `to_numpy` theorem: a 3×2 `u16_le` frame with a 12-byte
buffer decodes; a frame without pixel data and a frame with an unknown format
tag fail. -/
theorem to_numpy_decode_spec_witness :
    (∃ rows,
       (⟨"cam", 1, 3, 2, 0, some [1, 0, 2, 0, 3, 0, 4, 0, 5, 0, 6, 0],
          "u16_le"⟩ : Frame).to_numpy = Except.ok rows ∧
       rows.length = 2 ∧ (∀ r ∈ rows, r.length = 3) ∧
       rows.flatten.length = 3 * 2) ∧
    (∃ e, (⟨"cam", 1, 3, 2, 0, none, "u16_le"⟩ : Frame).to_numpy
       = Except.error e) ∧
    (∃ e, (⟨"cam", 1, 3, 2, 0, some [0, 0, 0], "rgb8"⟩ : Frame).to_numpy
       = Except.error e) :=
  ⟨to_numpy_decode_spec.1
      ⟨"cam", 1, 3, 2, 0, some [1, 0, 2, 0, 3, 0, 4, 0, 5, 0, 6, 0], "u16_le"⟩
      [1, 0, 2, 0, 3, 0, 4, 0, 5, 0, 6, 0] 2 rfl (by decide) (by decide),
   to_numpy_decode_spec.2.1 ⟨"cam", 1, 3, 2, 0, none, "u16_le"⟩ rfl,
   to_numpy_decode_spec.2.2 ⟨"cam", 1, 3, 2, 0, some [0, 0, 0], "rgb8"⟩
     (by decide)⟩

lemma parseMantissa_isSome (m : List Char) :
    (parseMantissa m).isSome = mantissaShape m := by
  unfold parseMantissa mantissaShape isDigits1
  cases h : m.splitOn '.' with
  | nil => simp [h]
  | cons a t =>
    cases t with
    | nil =>
      simp only [h]
      cases hc : (!a.isEmpty && a.all Char.isDigit) <;> simp [hc]
    | cons b t2 =>
      cases t2 with
      | nil =>
        simp only [h]
        cases ha : a.all Char.isDigit <;> cases hb : b.all Char.isDigit <;>
          cases hae : a.isEmpty <;> cases hbe : b.isEmpty <;>
          simp [ha, hb, hae, hbe]
      | cons c t3 => simp [h]

lemma parseExponent_isSome (e : List Char) :
    (parseExponent e).isSome = exponentShape e := by
  unfold parseExponent exponentShape isDigits1
  cases hc : (!(stripSign e).2.isEmpty && (stripSign e).2.all Char.isDigit) <;>
    simp [hc]

/-- The parser of finite decimal float literals succeeds exactly on the
strings the shape recognizer accepts. -/
lemma pyFloat_isSome (s : String) :
    (pyFloat s).isSome = isPyFloatString s := by
  unfold pyFloat isPyFloatString
  dsimp only
  generalize stripSign ((trimChars s.toList).map lowerE) = p
  cases h : p.2.splitOn 'e' with
  | nil => simp [h]
  | cons a t =>
    cases t with
    | nil =>
      simp only [h]
      rw [(parseMantissa_isSome a).symm]
      cases hm : parseMantissa a <;> simp [hm]
    | cons b t2 =>
      cases t2 with
      | nil =>
        simp only [h]
        rw [(parseMantissa_isSome a).symm, (parseExponent_isSome b).symm]
        cases hm : parseMantissa a <;> cases he : parseExponent b <;>
          simp [hm, he]
      | cons c t3 => simp [h]

/-- C9: delivering a parameter-change event never parses its values — the
event is yielded with `old_value`/`new_value` copied verbatim whatever those
strings are, so delivery of non-numeric values succeeds — while the
caller-invoked `old_as_float`/`new_as_float` conversions return the parsed
number exactly when the string is a valid decimal number and signal a parse
error exactly when it is not. -/
theorem parameter_values_parsed_on_demand :
    (∀ (s : ParamSubState) (raw : RawChange) (rest : List RawChange),
       s.active = true → s.iterator = some (raw :: rest) →
       (ParameterSubscription.anext s).1 = some (mkParameterChange raw) ∧
       (mkParameterChange raw).old_value = raw.old_value ∧
       (mkParameterChange raw).new_value = raw.new_value) ∧
    (∀ pc : ParameterChange,
       ((∃ q, pc.old_as_float = Except.ok q)
          ↔ isPyFloatString pc.old_value = true) ∧
       ((∃ q, pc.new_as_float = Except.ok q)
          ↔ isPyFloatString pc.new_value = true) ∧
       (isPyFloatString pc.old_value = false →
          ∃ e, pc.old_as_float = Except.error e) ∧
       (isPyFloatString pc.new_value = false →
          ∃ e, pc.new_as_float = Except.error e) ∧
       (∀ q, pc.old_as_float = Except.ok q → pyFloat pc.old_value = some q) ∧
       (∀ q, pc.new_as_float = Except.ok q → pyFloat pc.new_value = some q)) := by
  refine ⟨?_, ?_⟩
  · intro s raw rest hact hit
    obtain ⟨dev, names, cb, cnt, act, it⟩ := s
    simp only at hact hit
    subst hact hit
    exact ⟨by simp [ParameterSubscription.anext], rfl, rfl⟩
  · intro pc
    have ho := pyFloat_isSome pc.old_value
    have hn := pyFloat_isSome pc.new_value
    unfold ParameterChange.old_as_float ParameterChange.new_as_float
    cases hpo : pyFloat pc.old_value <;> cases hpn : pyFloat pc.new_value <;>
      rw [hpo] at ho <;> rw [hpn] at hn <;> simp at ho hn <;>
      simp [ho, hn]

/-- Witness for the parse-on-demand theorem: a concrete subscription delivers
an event whose values are the non-numeric strings `ENUM_A` and `ready`; on
that event `old_as_float` signals a parse error, while on a numeric event
`new_as_float` succeeds. -/
theorem parameter_values_parsed_on_demand_witness :
    (ParameterSubscription.anext
        (ParameterSubscription.aenter (some "laser") none false
          [⟨"laser", "mode", "ENUM_A", "ready", ""⟩])).1
      = some (mkParameterChange ⟨"laser", "mode", "ENUM_A", "ready", ""⟩) ∧
    (∃ e, (⟨"laser", "mode", "ENUM_A", "ready", ""⟩ : ParameterChange).old_as_float
        = Except.error e) ∧
    (∃ q, (⟨"laser", "wavelength_nm", "780", "781.5", "nm"⟩ : ParameterChange).new_as_float
        = Except.ok q) :=
  ⟨(parameter_values_parsed_on_demand.1
      (ParameterSubscription.aenter (some "laser") none false
        [⟨"laser", "mode", "ENUM_A", "ready", ""⟩])
      ⟨"laser", "mode", "ENUM_A", "ready", ""⟩ [] rfl rfl).1,
   (parameter_values_parsed_on_demand.2
      ⟨"laser", "mode", "ENUM_A", "ready", ""⟩).2.2.1 (by decide),
   (parameter_values_parsed_on_demand.2
      ⟨"laser", "wavelength_nm", "780", "781.5", "nm"⟩).2.1.mpr (by decide)⟩
